import Mathlib

/-!
Verification of the TinyG2 motion-controller core against its specification.

The development shallowly embeds the relevant source functions:
  plan_zoid.cpp        - mp_calculate_trapezoid, mp_get_target_length,
                         mp_get_target_velocity
  canonical_machine.cpp - coordinate offsets, target resolution, straight
                         traverse and feed, G92 family, feedhold sequencing,
                         coolant execution
  spindle.cpp          - cm_get_spindle_pwm

C float arithmetic is embedded as exact real arithmetic.  Numeric planner
constants (NOM_SEGMENT_TIME and friends) are defined in planner.h, which is
not part of the sources at hand, so they are carried as parameters of the
embedding, constrained only by positivity and ordering facts evident from
the specification.
-/

namespace TinyG2

open Classical

/-- Modelled from the spec: the numeric values of NOM_SEGMENT_TIME,
MIN_SEGMENT_TIME_PLUS_MARGIN, TRAPEZOID_VELOCITY_TOLERANCE and
TRAPEZOID_ITERATION_ERROR_PERCENT are defined in planner.h, which is not
among the given sources.  They are carried as parameters; the specification
fixes NOM_SEGMENT_TIME at roughly 5 ms and treats all of them as positive,
with the minimum segment time no larger than the nominal one. -/
structure PlannerCfg where
  nom_segment_time : ℝ
  min_segment_time_plus_margin : ℝ
  trapezoid_velocity_tolerance : ℝ
  trapezoid_iteration_error_percent : ℝ

/-- The planner buffer fields read and written by mp_calculate_trapezoid
(struct mpBuf_t, declared in planner.h; field set taken from the uses in
plan_zoid.cpp). -/
structure MpBuf where
  length : ℝ
  entry_velocity : ℝ
  cruise_velocity : ℝ
  exit_velocity : ℝ
  cruise_vmax : ℝ
  delta_vmax : ℝ
  recip_jerk : ℝ
  cbrt_jerk : ℝ
  head_length : ℝ
  body_length : ℝ
  tail_length : ℝ

/-- plan_zoid.cpp line 351: (Vi + Vt) * sqrt(fabs(Vt - Vi) * bf->recip_jerk). -/
noncomputable def mp_get_target_length (Vi Vt : ℝ) (bf : MpBuf) : ℝ :=
  (Vi + Vt) * Real.sqrt (|Vt - Vi| * bf.recip_jerk)

/-- plan_zoid.cpp line 356: pow(L, 0.66666666) * bf->cbrt_jerk + Vi
(the Newton-Raphson refinement below it sits in an inactive preprocessor
block and is compiled out). -/
noncomputable def mp_get_target_velocity (Vi L : ℝ) (bf : MpBuf) : ℝ :=
  L ^ (0.66666666 : ℝ) * bf.cbrt_jerk + Vi

/-- plan_zoid.cpp line 128: MIN_SEGMENT_TIME_PLUS_MARGIN * (cruise + entry). -/
noncomputable def MIN_HEAD_LENGTH (cfg : PlannerCfg) (bf : MpBuf) : ℝ :=
  cfg.min_segment_time_plus_margin * (bf.cruise_velocity + bf.entry_velocity)

/-- plan_zoid.cpp line 129: MIN_SEGMENT_TIME_PLUS_MARGIN * (cruise + exit). -/
noncomputable def MIN_TAIL_LENGTH (cfg : PlannerCfg) (bf : MpBuf) : ℝ :=
  cfg.min_segment_time_plus_margin * (bf.cruise_velocity + bf.exit_velocity)

/-- plan_zoid.cpp line 130: MIN_SEGMENT_TIME_PLUS_MARGIN * cruise. -/
noncomputable def MIN_BODY_LENGTH (cfg : PlannerCfg) (bf : MpBuf) : ℝ :=
  cfg.min_segment_time_plus_margin * bf.cruise_velocity

/-- One pass of the body of the asymmetric rate-limited do-while loop
(plan_zoid.cpp lines 244 to 256): from the computed velocity of the previous
iteration, recompute head and tail lengths, proportionally rescale the longer
one to the block length, and return the next computed velocity. -/
noncomputable def trap_step (bf : MpBuf) (computed : ℝ) : ℝ :=
  let head := mp_get_target_length bf.entry_velocity computed bf
  let tail := mp_get_target_length bf.exit_velocity computed bf
  if head > tail then
    mp_get_target_velocity bf.entry_velocity (head / (head + tail) * bf.length) bf
  else
    mp_get_target_velocity bf.exit_velocity (tail / (head + tail) * bf.length) bf

/-- The asymmetric rate-limited do-while loop (plan_zoid.cpp lines 244 to 256),
made total by a fuel argument: the body runs at least once, and the loop stops
either when the relative change drops to the iteration error tolerance or when
the fuel is exhausted.  The value returned is the final computed velocity. -/
noncomputable def trap_loop (cfg : PlannerCfg) (bf : MpBuf) : ℕ → ℝ → ℝ
  | 0, computed => trap_step bf computed
  | n + 1, computed =>
      let next := trap_step bf computed
      if |computed - next| / next > cfg.trapezoid_iteration_error_percent then
        trap_loop cfg bf n next
      else next

/-- The shared continuation of mp_calculate_trapezoid from line 210 on:
rate-limited HT and HT-prime cases, then the requested-fit cases.
Reached with body_length already set to 0 (line 180). -/
noncomputable def mp_calculate_trapezoid_general (cfg : PlannerCfg) (fuel : ℕ)
    (bf : MpBuf) : MpBuf :=
  let head1 :=
    if mp_get_target_length bf.entry_velocity bf.cruise_velocity bf < MIN_HEAD_LENGTH cfg bf
    then MIN_HEAD_LENGTH cfg bf
    else mp_get_target_length bf.entry_velocity bf.cruise_velocity bf
  let tail1 :=
    if mp_get_target_length bf.exit_velocity bf.cruise_velocity bf < MIN_TAIL_LENGTH cfg bf
    then MIN_TAIL_LENGTH cfg bf
    else mp_get_target_length bf.exit_velocity bf.cruise_velocity bf
  if bf.length < head1 + tail1 then
    if |bf.entry_velocity - bf.exit_velocity| < cfg.trapezoid_velocity_tolerance then
      -- symmetric rate-limited case, lines 220 to 237
      let head2 := bf.length / 2
      let cruise2 := min bf.cruise_vmax (mp_get_target_velocity bf.entry_velocity head2 bf)
      if head2 < cfg.min_segment_time_plus_margin * (cruise2 + bf.entry_velocity) then
        let cruise3 := (bf.entry_velocity + cruise2) / 2
        { bf with body_length := bf.length, head_length := 0, tail_length := 0,
                  cruise_velocity := cruise3, entry_velocity := cruise3,
                  exit_velocity := cruise3 }
      else
        { bf with head_length := head2, tail_length := head2,
                  cruise_velocity := cruise2, body_length := 0 }
    else
      -- asymmetric rate-limited case, lines 243 to 270
      let cruise4 := trap_loop cfg bf fuel bf.cruise_vmax
      let head4 := mp_get_target_length bf.entry_velocity cruise4 bf
      let tail4 := bf.length - head4
      let head5 := if head4 < cfg.min_segment_time_plus_margin * (cruise4 + bf.entry_velocity)
                   then 0 else head4
      let tail5 := if head4 < cfg.min_segment_time_plus_margin * (cruise4 + bf.entry_velocity)
                   then bf.length else tail4
      let head6 := if tail5 < cfg.min_segment_time_plus_margin * (cruise4 + bf.exit_velocity)
                   then bf.length else head5
      let tail6 := if tail5 < cfg.min_segment_time_plus_margin * (cruise4 + bf.exit_velocity)
                   then 0 else tail5
      { bf with cruise_velocity := cruise4, head_length := head6,
                tail_length := tail6, body_length := 0 }
  else
    -- requested-fit cases, lines 273 to 296
    let body := bf.length - head1 - tail1
    if body < MIN_BODY_LENGTH cfg bf ∧ body ≠ 0 then
      if head1 ≠ 0 then
        if tail1 ≠ 0 then
          { bf with head_length := head1 + body / 2, tail_length := tail1 + body / 2,
                    body_length := 0 }
        else
          { bf with head_length := head1 + body, tail_length := tail1, body_length := 0 }
      else
        { bf with tail_length := tail1 + body, head_length := head1, body_length := 0 }
    else if head1 = 0 ∧ tail1 = 0 then
      { bf with head_length := head1, tail_length := tail1, body_length := body,
                cruise_velocity := bf.entry_velocity }
    else
      { bf with head_length := head1, tail_length := tail1, body_length := body }

/-- mp_calculate_trapezoid (plan_zoid.cpp lines 132 to 297).  The do-while of
the asymmetric case carries a fuel argument; the tolerance comparisons
fp_NOT_ZERO and fp_ZERO of the requested-fit cleanup are embedded as exact
comparisons with zero (util.h is not among the given sources). -/
noncomputable def mp_calculate_trapezoid (cfg : PlannerCfg) (fuel : ℕ)
    (bf : MpBuf) : MpBuf :=
  if bf.length / bf.cruise_velocity ≤ cfg.nom_segment_time then
    -- single-segment body cases, lines 149 to 161
    if bf.length / bf.cruise_velocity < cfg.min_segment_time_plus_margin then
      let cruise := bf.length / cfg.min_segment_time_plus_margin
      { bf with cruise_velocity := cruise,
                exit_velocity := max 0 (min cruise (bf.entry_velocity - bf.delta_vmax)),
                body_length := bf.length, head_length := 0, tail_length := 0 }
    else
      { bf with exit_velocity :=
                  max 0 (min bf.cruise_velocity (bf.entry_velocity - bf.delta_vmax)),
                body_length := bf.length, head_length := 0, tail_length := 0 }
  else if bf.cruise_velocity - bf.entry_velocity < cfg.trapezoid_velocity_tolerance ∧
          bf.cruise_velocity - bf.exit_velocity < cfg.trapezoid_velocity_tolerance then
    -- all velocities match, lines 166 to 172
    { bf with body_length := bf.length, head_length := 0, tail_length := 0 }
  else if bf.length ≤ MIN_HEAD_LENGTH cfg bf + MIN_BODY_LENGTH cfg bf + MIN_TAIL_LENGTH cfg bf ∧
          bf.exit_velocity < bf.entry_velocity then
    -- tail-only case, lines 183 to 194
    let exitv := if bf.length < MIN_TAIL_LENGTH cfg bf then
                   max 0 (bf.length / cfg.min_segment_time_plus_margin - bf.entry_velocity)
                 else bf.exit_velocity
    { bf with exit_velocity := exitv, cruise_velocity := bf.entry_velocity,
              tail_length := bf.length, head_length := 0, body_length := 0 }
  else if bf.length ≤ MIN_HEAD_LENGTH cfg bf + MIN_BODY_LENGTH cfg bf + MIN_TAIL_LENGTH cfg bf ∧
          bf.entry_velocity < bf.exit_velocity then
    -- head-only case, lines 196 to 207
    let exitv := if bf.length < MIN_HEAD_LENGTH cfg bf then
                   max 0 (bf.length / cfg.min_segment_time_plus_margin - bf.entry_velocity)
                 else bf.exit_velocity
    { bf with exit_velocity := exitv, cruise_velocity := exitv,
              head_length := bf.length, tail_length := 0, body_length := 0 }
  else
    mp_calculate_trapezoid_general cfg fuel { bf with body_length := 0 }

/-! ## Canonical machine embedding (canonical_machine.cpp) -/

/-- Return status codes (stat_t, declared in tinyg2.h).  Only the codes the
verified operations can produce are distinguished; every other non-OK code a
collaborator may return is collapsed into `err`. -/
inductive Stat where
  | ok
  | gcode_feedrate_error
  | err
deriving DecidableEq, Repr

/-- gm.units_mode: 0 = inches, 1 = mm (canonical_machine.cpp line 633). -/
inductive UnitsMode where
  | inches
  | millimeters
deriving DecidableEq, Repr

/-- gm.distance_mode: 0 = absolute, 1 = incremental (line 642). -/
inductive DistanceMode where
  | absolute
  | incremental
deriving DecidableEq, Repr

/-- cfg.a[i].axis_mode, from the axis mode handling in cm_set_target. -/
inductive AxisMode where
  | disabled
  | standard
  | inhibited
  | radius
deriving DecidableEq, Repr

/-- gm.motion_mode values used by the verified operations. -/
inductive MotionMode where
  | cancel_motion_mode
  | straight_traverse
  | straight_feed
deriving DecidableEq, Repr

/-- gm.spindle_mode values distinguished by cm_get_spindle_pwm. -/
inductive SpindleMode where
  | off
  | cw
  | ccw
deriving DecidableEq, Repr

/-- Per-axis configuration (cfg.a[i]) fields read by the verified code. -/
structure AxisCfg where
  axis_mode : AxisMode
  radius : ℝ
  feedrate_max : ℝ
  velocity_max : ℝ

/-- Spindle PWM calibration (cfg.p), read by cm_get_spindle_pwm. -/
structure PwmCfg where
  cw_speed_lo : ℝ
  cw_speed_hi : ℝ
  cw_phase_lo : ℝ
  cw_phase_hi : ℝ
  ccw_speed_lo : ℝ
  ccw_speed_hi : ℝ
  ccw_phase_lo : ℝ
  ccw_phase_hi : ℝ
  phase_off : ℝ

/-- Configuration singleton fields read by the verified code: per-coordinate
system offsets cfg.offset, per-axis configuration cfg.a, PWM block cfg.p. -/
structure Cfg where
  offset : ℕ → Fin 6 → ℝ
  a : Fin 6 → AxisCfg
  p : PwmCfg

/-- The G-code model singleton gm: the fields touched by the operations under
verification.  Planner-side state is not part of gm; queueing effects are
returned separately by the functions that have them. -/
structure GMState where
  position : Fin 6 → ℝ
  target : Fin 6 → ℝ
  units_mode : UnitsMode
  distance_mode : DistanceMode
  motion_mode : MotionMode
  coord_system : ℕ
  absolute_override : Bool
  origin_offset : Fin 6 → ℝ
  origin_offset_enable : ℕ
  feed_rate : ℝ
  inverse_feed_rate : ℝ
  inverse_feed_rate_mode : Bool
  min_time : ℝ
  work_offset : Fin 6 → ℝ
  spindle_speed : ℝ
  spindle_mode : SpindleMode
  mist_coolant : Bool
  flood_coolant : Bool

/-- MM_PER_INCH (tinyg2.h): 25.4 mm per inch. -/
noncomputable def MM_PER_INCH : ℝ := 25.4

/-- canonical_machine.cpp line 131: convert per units mode. -/
noncomputable def to_millimeters (gm : GMState) (a : ℝ) : ℝ :=
  if gm.units_mode = UnitsMode.inches then a * MM_PER_INCH else a

/-- cm_get_coord_offset (canonical_machine.cpp lines 210 to 219). -/
noncomputable def cm_get_coord_offset (cfg : Cfg) (gm : GMState) (axis : Fin 6) : ℝ :=
  if gm.absolute_override = true then 0
  else if gm.origin_offset_enable = 1 then
    cfg.offset gm.coord_system axis + gm.origin_offset axis
  else
    cfg.offset gm.coord_system axis

/-- cm_get_coord_offset_vector (lines 221 to 227). -/
noncomputable def cm_get_coord_offset_vector (cfg : Cfg) (gm : GMState) : Fin 6 → ℝ :=
  fun i => cm_get_coord_offset cfg gm i

/-- The static helper _calc_ABC (lines 378 to 389); the radius branch uses
the real constant pi exactly where the C source uses M_PI. -/
noncomputable def calc_ABC (cfg : Cfg) (gm : GMState) (i : Fin 6)
    (target : Fin 6 → ℝ) (flag : Fin 6 → Bool) : ℝ :=
  if (cfg.a i).axis_mode = AxisMode.standard ∨ (cfg.a i).axis_mode = AxisMode.inhibited then
    target i
  else if (cfg.a i).axis_mode = AxisMode.radius ∧ flag i = true then
    to_millimeters gm (target i) * 360 / (2 * Real.pi * (cfg.a i).radius)
  else 0

/-- cm_set_target (lines 342 to 373).  Axes 0 to 2 are XYZ, axes 3 to 5 are
ABC.  The fp_FALSE tests on the axis flags are embedded by taking the flags
as booleans (util.h is not among the given sources). -/
noncomputable def cm_set_target (cfg : Cfg) (gm : GMState)
    (target : Fin 6 → ℝ) (flag : Fin 6 → Bool) : GMState :=
  { gm with target := fun i =>
      if i.val ≤ 2 then
        if flag i = false ∨ (cfg.a i).axis_mode = AxisMode.disabled then gm.target i
        else if (cfg.a i).axis_mode = AxisMode.standard ∨
                (cfg.a i).axis_mode = AxisMode.inhibited then
          if gm.distance_mode = DistanceMode.absolute then
            cm_get_coord_offset cfg gm i + to_millimeters gm (target i)
          else
            gm.target i + to_millimeters gm (target i)
        else gm.target i
      else
        if flag i = false ∨ (cfg.a i).axis_mode = AxisMode.disabled then gm.target i
        else
          if gm.distance_mode = DistanceMode.absolute then
            calc_ABC cfg gm i target flag + cm_get_coord_offset cfg gm i
          else
            gm.target i + calc_ABC cfg gm i target flag }

/-- cm_set_gcode_model_endpoint_position (lines 404 to 407): copy the target
into the position only when the submitted move reported STAT_OK. -/
noncomputable def cm_set_gcode_model_endpoint_position (status : Stat) (gm : GMState) :
    GMState :=
  if status = Stat.ok then { gm with position := gm.target } else gm

/-- Modelled from the spec: vector_equal comes from util.h, which is not
among the given sources; the specification treats the no-op case as exact
zero distance between target and position. -/
def vector_equal (a b : Fin 6 → ℝ) : Prop :=
  ∀ i, a i = b i

/-- The static helper _get_move_times (lines 471 to 506), returning the pair
of optimal and minimum move times.  The fp_ZERO test on the linear feed time
is exact comparison with zero; the loop over axes is unrolled. -/
noncomputable def get_move_times (cfg : Cfg) (gm : GMState) : ℝ × ℝ :=
  let inv_time :=
    if gm.motion_mode = MotionMode.straight_feed ∧ gm.inverse_feed_rate_mode = true then
      gm.inverse_feed_rate
    else 0
  let xyz_dist := Real.sqrt ((gm.target 0 - gm.position 0) ^ 2 +
    (gm.target 1 - gm.position 1) ^ 2 + (gm.target 2 - gm.position 2) ^ 2)
  let xyz_time :=
    if gm.motion_mode = MotionMode.straight_feed ∧ gm.inverse_feed_rate_mode = false then
      xyz_dist / gm.feed_rate
    else 0
  let abc_time :=
    if gm.motion_mode = MotionMode.straight_feed ∧ gm.inverse_feed_rate_mode = false ∧
       xyz_time = 0 then
      Real.sqrt ((gm.target 3 - gm.position 3) ^ 2 + (gm.target 4 - gm.position 4) ^ 2 +
        (gm.target 5 - gm.position 5) ^ 2) / gm.feed_rate
    else 0
  let tmp := fun i : Fin 6 =>
    if gm.motion_mode = MotionMode.straight_feed then
      |gm.target i - gm.position i| / (cfg.a i).feedrate_max
    else
      |gm.target i - gm.position i| / (cfg.a i).velocity_max
  let max_time := max (max (max (max (max (max 0 (tmp 0)) (tmp 1)) (tmp 2)) (tmp 3)) (tmp 4)) (tmp 5)
  let min_time := min (min (min (min (min (min 1234567 (tmp 0)) (tmp 1)) (tmp 2)) (tmp 3)) (tmp 4)) (tmp 5)
  (max (max inv_time max_time) (max xyz_time abc_time), min_time)

/-- cm_straight_traverse (lines 754 to 767).  The status the planner returns
for the submitted line (MP_LINE, whose body is in the planner sources) is an
input; the result is the returned status, the final gm, and whether a line
was submitted to the planner. -/
noncomputable def cm_straight_traverse (cfg : Cfg) (gm : GMState) (line_status : Stat)
    (target : Fin 6 → ℝ) (flag : Fin 6 → Bool) : Stat × GMState × Bool :=
  let gm1 := { gm with motion_mode := MotionMode.straight_traverse }
  let gm2 := cm_set_target cfg gm1 target flag
  if vector_equal gm2.target gm2.position then (Stat.ok, gm2, false)
  else
    let gm3 := { gm2 with min_time := (get_move_times cfg gm2).2,
                          work_offset := cm_get_coord_offset_vector cfg gm2 }
    (line_status, cm_set_gcode_model_endpoint_position line_status gm3, true)

/-- cm_straight_feed (lines 867 to 893).  Identical to the traverse except
for the motion mode and the zero-feed-rate trap; fp_ZERO on the feed rate is
exact comparison with zero. -/
noncomputable def cm_straight_feed (cfg : Cfg) (gm : GMState) (line_status : Stat)
    (target : Fin 6 → ℝ) (flag : Fin 6 → Bool) : Stat × GMState × Bool :=
  let gm1 := { gm with motion_mode := MotionMode.straight_feed }
  if gm1.inverse_feed_rate_mode = false ∧ gm1.feed_rate = 0 then
    (Stat.gcode_feedrate_error, gm1, false)
  else
    let gm2 := cm_set_target cfg gm1 target flag
    if vector_equal gm2.target gm2.position then (Stat.ok, gm2, false)
    else
      let gm3 := { gm2 with min_time := (get_move_times cfg gm2).2,
                            work_offset := cm_get_coord_offset_vector cfg gm2 }
      (line_status, cm_set_gcode_model_endpoint_position line_status gm3, true)

/-- cm_set_origin_offsets, G92 (lines 713 to 723).  The queued _exec_offset
command only refreshes the runtime work offset and is not part of gm. -/
noncomputable def cm_set_origin_offsets (cfg : Cfg) (gm : GMState)
    (offset : Fin 6 → ℝ) (flag : Fin 6 → Bool) : GMState :=
  { gm with origin_offset_enable := 1,
            origin_offset := fun i =>
              if flag i = true then
                gm.position i - cfg.offset gm.coord_system i - to_millimeters gm (offset i)
              else gm.origin_offset i }

/-- cm_reset_origin_offsets, G92.1 (lines 725 to 732). -/
def cm_reset_origin_offsets (gm : GMState) : GMState :=
  { gm with origin_offset_enable := 0, origin_offset := fun _ => 0 }

/-- cm_suspend_origin_offsets, G92.2 (lines 734 to 739). -/
def cm_suspend_origin_offsets (gm : GMState) : GMState :=
  { gm with origin_offset_enable := 0 }

/-- cm_resume_origin_offsets, G92.3 (lines 741 to 746). -/
def cm_resume_origin_offsets (gm : GMState) : GMState :=
  { gm with origin_offset_enable := 1 }

/-! ## Feedhold, queue flush and cycle start sequencing -/

/-- cm.motion_state values. -/
inductive MotionState where
  | stop
  | run
  | hold
deriving DecidableEq, Repr

/-- cm.hold_state values. -/
inductive HoldState where
  | off
  | sync
  | decel_continue
  | decel
  | hold
  | end_hold
deriving DecidableEq, Repr

/-- cm.machine_state values used by the sequencing callback. -/
inductive MachineState where
  | ready
  | alarm
  | program_stop
  | program_end
  | cycle
deriving DecidableEq, Repr

/-- cm.cycle_state values used by the sequencing callback. -/
inductive CycleState where
  | off
  | started
  | homing
  | probe
  | jog
deriving DecidableEq, Repr

/-- The canonical machine singleton cm fields driven by the sequencing
callback, together with two effect flags recording the planner-side calls
made during one invocation: cm_flush_planner flushing the queue (its gm and
runtime position resync is abstracted into the flag) and mp_end_hold asking
the planner to resume. -/
structure CMState where
  machine_state : MachineState
  cycle_state : CycleState
  motion_state : MotionState
  hold_state : HoldState
  feedhold_requested : Bool
  queue_flush_requested : Bool
  cycle_start_requested : Bool
  planner_flushed : Bool
  planner_resumed : Bool
deriving DecidableEq, Repr

/-- cm_cycle_start (lines 1149 to 1155). -/
def cm_cycle_start (s : CMState) : CMState :=
  { s with machine_state := MachineState.cycle,
           cycle_state := if s.cycle_state = CycleState.off then CycleState.started
                          else s.cycle_state }

/-- First block of cm_feedhold_sequencing_callback (lines 1113 to 1119):
honor a pending feedhold only from running motion with no hold in progress,
and clear the request either way. -/
def feedhold_block (s : CMState) : CMState :=
  if s.feedhold_requested = true then
    if s.motion_state = MotionState.run ∧ s.hold_state = HoldState.off then
      { s with motion_state := MotionState.hold, hold_state := HoldState.sync,
               feedhold_requested := false }
    else
      { s with feedhold_requested := false }
  else s

/-- Second block of cm_feedhold_sequencing_callback (lines 1120 to 1126):
honor a pending queue flush only from a motion stop or from a completed
feedhold, and leave the request set otherwise. -/
def queue_flush_block (s : CMState) : CMState :=
  if s.queue_flush_requested = true ∧
     (s.motion_state = MotionState.stop ∨
      (s.motion_state = MotionState.hold ∧ s.hold_state = HoldState.hold)) then
    { s with queue_flush_requested := false, planner_flushed := true }
  else s

/-- Third block of cm_feedhold_sequencing_callback (lines 1127 to 1132):
honor a pending cycle start only when no queue flush is pending. -/
def cycle_start_block (s : CMState) : CMState :=
  if s.cycle_start_requested = true ∧ s.queue_flush_requested = false then
    cm_cycle_start { s with cycle_start_requested := false,
                            hold_state := HoldState.end_hold,
                            planner_resumed := true }
  else s

/-- cm_feedhold_sequencing_callback (lines 1111 to 1134): the three request
blocks applied in source order. -/
def cm_feedhold_sequencing_callback (s : CMState) : CMState :=
  cycle_start_block (queue_flush_block (feedhold_block s))

/-! ## Spindle and coolant -/

/-- cm_get_spindle_pwm (spindle.cpp lines 60 to 86): for CW and CCW clamp
gm.spindle_speed into the configured band of that direction and return the
interpolated duty cycle; otherwise return the off phase.  The result is the
updated gm paired with the returned float. -/
noncomputable def cm_get_spindle_pwm (cfg : Cfg) (gm : GMState)
    (spindle_mode : SpindleMode) : GMState × ℝ :=
  let speed_lo := if spindle_mode = SpindleMode.cw then cfg.p.cw_speed_lo
                  else if spindle_mode = SpindleMode.ccw then cfg.p.ccw_speed_lo else 0
  let speed_hi := if spindle_mode = SpindleMode.cw then cfg.p.cw_speed_hi
                  else if spindle_mode = SpindleMode.ccw then cfg.p.ccw_speed_hi else 0
  let phase_lo := if spindle_mode = SpindleMode.cw then cfg.p.cw_phase_lo
                  else if spindle_mode = SpindleMode.ccw then cfg.p.ccw_phase_lo else 0
  let phase_hi := if spindle_mode = SpindleMode.cw then cfg.p.cw_phase_hi
                  else if spindle_mode = SpindleMode.ccw then cfg.p.ccw_phase_hi else 0
  if spindle_mode = SpindleMode.cw ∨ spindle_mode = SpindleMode.ccw then
    let s1 := if gm.spindle_speed < speed_lo then speed_lo else gm.spindle_speed
    let s2 := if s1 > speed_hi then speed_hi else s1
    let speed := (s2 - speed_lo) / (speed_hi - speed_lo)
    ({ gm with spindle_speed := s2 }, speed * (phase_hi - phase_lo) + phase_lo)
  else
    (gm, cfg.p.phase_off)

/-- The static _exec_mist_coolant_control (canonical_machine.cpp lines 948
to 956); the commented-out switch writes are hardware side effects outside
the model. -/
def exec_mist_coolant_control (gm : GMState) (mist_coolant : Bool) : GMState :=
  { gm with mist_coolant := mist_coolant }

/-- The static _exec_flood_coolant_control (lines 958 to 967): turning flood
coolant off also forces mist coolant off (M9 special function). -/
def exec_flood_coolant_control (gm : GMState) (flood_coolant : Bool) : GMState :=
  let gm1 := { gm with flood_coolant := flood_coolant }
  if flood_coolant = true then gm1
  else exec_mist_coolant_control gm1 false

/-- The ordering invariant the specification states on planned blocks. -/
def velocity_ordered (bf : MpBuf) : Prop :=
  bf.entry_velocity ≤ bf.cruise_velocity ∧ bf.exit_velocity ≤ bf.cruise_velocity

/-! ## Sample values used by witnesses and counterexamples -/

/-- Sample planner constants: nominal segment time 5 ms, minimum-plus-margin
2.5 ms (both in minutes), small positive tolerances, consistent with the
specification. -/
noncomputable def cfgA : PlannerCfg :=
  { nom_segment_time := 1 / 12000
    min_segment_time_plus_margin := 1 / 24000
    trapezoid_velocity_tolerance := 1 / 10
    trapezoid_iteration_error_percent := 1 / 100 }

/-- Sample block short enough for the force-fit clamp: its naive move time
1/48000 min is below the minimum segment time of cfgA. -/
noncomputable def bufB : MpBuf :=
  { length := 1 / 480, entry_velocity := 100, cruise_velocity := 100,
    exit_velocity := 0, cruise_vmax := 100, delta_vmax := 0,
    recip_jerk := 1, cbrt_jerk := 1,
    head_length := 0, body_length := 0, tail_length := 0 }

/-- Sample block whose three requested velocities agree. -/
noncomputable def bufC : MpBuf :=
  { length := 1, entry_velocity := 100, cruise_velocity := 100,
    exit_velocity := 100, cruise_vmax := 100, delta_vmax := 0,
    recip_jerk := 1, cbrt_jerk := 1,
    head_length := 0, body_length := 0, tail_length := 0 }

/-- Sample PWM calibration with ascending speed bands. -/
noncomputable def pwmA : PwmCfg :=
  { cw_speed_lo := 1000, cw_speed_hi := 2000, cw_phase_lo := 1 / 10,
    cw_phase_hi := 9 / 10, ccw_speed_lo := 1000, ccw_speed_hi := 2000,
    ccw_phase_lo := 1 / 10, ccw_phase_hi := 9 / 10, phase_off := 0 }

/-- Sample configuration: zero coordinate offsets, all axes standard. -/
noncomputable def cfgCM : Cfg :=
  { offset := fun _ _ => 0,
    a := fun _ => { axis_mode := AxisMode.standard, radius := 1,
                    feedrate_max := 1000, velocity_max := 1000 },
    p := pwmA }

/-- Sample configuration with nonzero coordinate offsets. -/
noncomputable def cfgB : Cfg :=
  { cfgCM with offset := fun _ _ => 10 }

/-- The all-zero axis vector. -/
noncomputable def vec0 : Fin 6 → ℝ := fun _ => 0

/-- The all-one axis vector. -/
noncomputable def vec1 : Fin 6 → ℝ := fun _ => 1

/-- Axis flags all clear. -/
def flagNone : Fin 6 → Bool := fun _ => false

/-- Sample G-code model state: position at the origin, target away from it,
inverse feed rate mode active. -/
noncomputable def gmA : GMState :=
  { position := vec0, target := vec1, units_mode := UnitsMode.millimeters,
    distance_mode := DistanceMode.absolute,
    motion_mode := MotionMode.cancel_motion_mode, coord_system := 1,
    absolute_override := false, origin_offset := vec0,
    origin_offset_enable := 0, feed_rate := 100, inverse_feed_rate := 0,
    inverse_feed_rate_mode := true, min_time := 0, work_offset := vec0,
    spindle_speed := 1500, spindle_mode := SpindleMode.off,
    mist_coolant := true, flood_coolant := true }

/-- Sample model state at rest with a zero feed rate in units-per-minute
mode: target coincides with position. -/
noncomputable def gmB : GMState :=
  { gmA with target := vec0, feed_rate := 0, inverse_feed_rate_mode := false }

/-- Sample model state with the G53 absolute override active. -/
noncomputable def gmD : GMState :=
  { gmA with absolute_override := true }

/-- Sample canonical machine state: running with a pending feedhold request. -/
def smA : CMState :=
  { machine_state := MachineState.cycle, cycle_state := CycleState.started,
    motion_state := MotionState.run, hold_state := HoldState.off,
    feedhold_requested := true, queue_flush_requested := false,
    cycle_start_requested := false, planner_flushed := false,
    planner_resumed := false }

/-! ## Theorems -/

theorem mp_calculate_trapezoid_general_sum (cfg : PlannerCfg) (fuel : ℕ) (bf : MpBuf) :
    (mp_calculate_trapezoid_general cfg fuel bf).head_length +
      (mp_calculate_trapezoid_general cfg fuel bf).body_length +
      (mp_calculate_trapezoid_general cfg fuel bf).tail_length = bf.length := by
  unfold mp_calculate_trapezoid_general
  dsimp only
  split_ifs <;> simp <;> ring

theorem mp_calculate_trapezoid_sum (cfg : PlannerCfg) (fuel : ℕ) (bf : MpBuf) :
    (mp_calculate_trapezoid cfg fuel bf).head_length +
      (mp_calculate_trapezoid cfg fuel bf).body_length +
      (mp_calculate_trapezoid cfg fuel bf).tail_length = bf.length := by
  unfold mp_calculate_trapezoid
  dsimp only
  split_ifs <;>
    first
      | (apply mp_calculate_trapezoid_general_sum)
      | (simp <;> ring)

theorem trapezoid_eval_force (cfg : PlannerCfg) (fuel : ℕ) (bf : MpBuf)
    (h1 : bf.length / bf.cruise_velocity ≤ cfg.nom_segment_time)
    (h2 : bf.length / bf.cruise_velocity < cfg.min_segment_time_plus_margin) :
    mp_calculate_trapezoid cfg fuel bf =
      { bf with cruise_velocity := bf.length / cfg.min_segment_time_plus_margin,
                exit_velocity := max 0 (min (bf.length / cfg.min_segment_time_plus_margin)
                  (bf.entry_velocity - bf.delta_vmax)),
                body_length := bf.length, head_length := 0, tail_length := 0 } := by
  unfold mp_calculate_trapezoid
  rw [if_pos h1, if_pos h2]

theorem trapezoid_eval_single (cfg : PlannerCfg) (fuel : ℕ) (bf : MpBuf)
    (h1 : bf.length / bf.cruise_velocity ≤ cfg.nom_segment_time)
    (h2 : ¬ bf.length / bf.cruise_velocity < cfg.min_segment_time_plus_margin) :
    mp_calculate_trapezoid cfg fuel bf =
      { bf with exit_velocity :=
                  max 0 (min bf.cruise_velocity (bf.entry_velocity - bf.delta_vmax)),
                body_length := bf.length, head_length := 0, tail_length := 0 } := by
  unfold mp_calculate_trapezoid
  rw [if_pos h1, if_neg h2]

theorem trapezoid_eval_match (cfg : PlannerCfg) (fuel : ℕ) (bf : MpBuf)
    (h1 : ¬ bf.length / bf.cruise_velocity ≤ cfg.nom_segment_time)
    (h2 : bf.cruise_velocity - bf.entry_velocity < cfg.trapezoid_velocity_tolerance)
    (h3 : bf.cruise_velocity - bf.exit_velocity < cfg.trapezoid_velocity_tolerance) :
    mp_calculate_trapezoid cfg fuel bf =
      { bf with body_length := bf.length, head_length := 0, tail_length := 0 } := by
  unfold mp_calculate_trapezoid
  rw [if_neg h1, if_pos ⟨h2, h3⟩]

theorem trapezoid_eval_tail (cfg : PlannerCfg) (fuel : ℕ) (bf : MpBuf)
    (h1 : ¬ bf.length / bf.cruise_velocity ≤ cfg.nom_segment_time)
    (h2 : ¬ (bf.cruise_velocity - bf.entry_velocity < cfg.trapezoid_velocity_tolerance ∧
             bf.cruise_velocity - bf.exit_velocity < cfg.trapezoid_velocity_tolerance))
    (h3 : bf.length ≤ MIN_HEAD_LENGTH cfg bf + MIN_BODY_LENGTH cfg bf + MIN_TAIL_LENGTH cfg bf)
    (h4 : bf.exit_velocity < bf.entry_velocity) :
    mp_calculate_trapezoid cfg fuel bf =
      { bf with exit_velocity :=
                  (if bf.length < MIN_TAIL_LENGTH cfg bf then
                     max 0 (bf.length / cfg.min_segment_time_plus_margin - bf.entry_velocity)
                   else bf.exit_velocity),
                cruise_velocity := bf.entry_velocity,
                tail_length := bf.length, head_length := 0, body_length := 0 } := by
  unfold mp_calculate_trapezoid
  rw [if_neg h1, if_neg h2, if_pos ⟨h3, h4⟩]

theorem trapezoid_eval_head (cfg : PlannerCfg) (fuel : ℕ) (bf : MpBuf)
    (h1 : ¬ bf.length / bf.cruise_velocity ≤ cfg.nom_segment_time)
    (h2 : ¬ (bf.cruise_velocity - bf.entry_velocity < cfg.trapezoid_velocity_tolerance ∧
             bf.cruise_velocity - bf.exit_velocity < cfg.trapezoid_velocity_tolerance))
    (h3 : bf.length ≤ MIN_HEAD_LENGTH cfg bf + MIN_BODY_LENGTH cfg bf + MIN_TAIL_LENGTH cfg bf)
    (h4 : bf.entry_velocity < bf.exit_velocity) :
    mp_calculate_trapezoid cfg fuel bf =
      { bf with exit_velocity :=
                  (if bf.length < MIN_HEAD_LENGTH cfg bf then
                     max 0 (bf.length / cfg.min_segment_time_plus_margin - bf.entry_velocity)
                   else bf.exit_velocity),
                cruise_velocity :=
                  (if bf.length < MIN_HEAD_LENGTH cfg bf then
                     max 0 (bf.length / cfg.min_segment_time_plus_margin - bf.entry_velocity)
                   else bf.exit_velocity),
                head_length := bf.length, tail_length := 0, body_length := 0 } := by
  unfold mp_calculate_trapezoid
  rw [if_neg h1, if_neg h2, if_neg (by rintro ⟨-, h⟩; exact absurd h4 (not_lt.mpr h.le)),
      if_pos ⟨h3, h4⟩]

/-- C1: for every planner block with positive length and entry, exit not
above cruise on entry, the section lengths assigned by mp_calculate_trapezoid
sum to the block length to within 1e-5 of the length (here: exactly). -/
theorem C1_trapezoid_length_partition (cfg : PlannerCfg) (fuel : ℕ) (bf : MpBuf)
    (hL : 0 < bf.length)
    (hec : bf.entry_velocity ≤ bf.cruise_velocity)
    (hxc : bf.exit_velocity ≤ bf.cruise_velocity) :
    |(mp_calculate_trapezoid cfg fuel bf).head_length +
      (mp_calculate_trapezoid cfg fuel bf).body_length +
      (mp_calculate_trapezoid cfg fuel bf).tail_length - bf.length| ≤
      (1e-5 : ℝ) * bf.length := by
  rw [mp_calculate_trapezoid_sum, sub_self, abs_zero]
  positivity

theorem C1_trapezoid_length_partition_witness :
    |(mp_calculate_trapezoid cfgA 8 bufC).head_length +
      (mp_calculate_trapezoid cfgA 8 bufC).body_length +
      (mp_calculate_trapezoid cfgA 8 bufC).tail_length - bufC.length| ≤
      (1e-5 : ℝ) * bufC.length :=
  C1_trapezoid_length_partition cfgA 8 bufC
    (by norm_num [bufC]) (by norm_num [bufC]) (by norm_num [bufC])

/-- C2 counterexample: a legal short block (positive length, ordered
velocities, sane positive constants) for which the force-fit clamp of the
single-segment branch lowers the cruise velocity below the entry velocity,
so the ordering does not survive the call. -/
theorem C2_velocity_ordering_counterexample :
    0 < cfgA.min_segment_time_plus_margin ∧
    cfgA.min_segment_time_plus_margin ≤ cfgA.nom_segment_time ∧
    0 < cfgA.trapezoid_velocity_tolerance ∧
    0 < bufB.length ∧
    bufB.entry_velocity ≤ bufB.cruise_velocity ∧
    bufB.exit_velocity ≤ bufB.cruise_velocity ∧
    ¬ velocity_ordered (mp_calculate_trapezoid cfgA 8 bufB) := by
  have h := trapezoid_eval_force cfgA 8 bufB
    (by norm_num [cfgA, bufB]) (by norm_num [cfgA, bufB])
  refine ⟨by norm_num [cfgA], by norm_num [cfgA], by norm_num [cfgA],
    by norm_num [bufB], by norm_num [bufB], by norm_num [bufB], ?_⟩
  rw [h]
  rintro ⟨hc, -⟩
  norm_num [bufB, cfgA, velocity_ordered] at hc

/-- C2 (amended): the velocity ordering survives the call on the
single-segment branch without the force-fit clamp, on the all-match body
branch, and on the non-degraded tail-only and head-only branches; on the
force-fit branch only exit not above cruise is guaranteed, because the clamp
may lower the cruise velocity below the entry velocity. -/
theorem C2_velocity_ordering_amended (cfg : PlannerCfg) (fuel : ℕ) (bf : MpBuf)
    (hmin : 0 < cfg.min_segment_time_plus_margin)
    (hL : 0 < bf.length)
    (hord : velocity_ordered bf) :
    (bf.length / bf.cruise_velocity ≤ cfg.nom_segment_time →
      (mp_calculate_trapezoid cfg fuel bf).exit_velocity ≤
        (mp_calculate_trapezoid cfg fuel bf).cruise_velocity) ∧
    (cfg.min_segment_time_plus_margin ≤ bf.length / bf.cruise_velocity →
     bf.length / bf.cruise_velocity ≤ cfg.nom_segment_time →
      velocity_ordered (mp_calculate_trapezoid cfg fuel bf)) ∧
    (cfg.nom_segment_time < bf.length / bf.cruise_velocity →
     bf.cruise_velocity - bf.entry_velocity < cfg.trapezoid_velocity_tolerance →
     bf.cruise_velocity - bf.exit_velocity < cfg.trapezoid_velocity_tolerance →
      velocity_ordered (mp_calculate_trapezoid cfg fuel bf)) ∧
    (cfg.nom_segment_time < bf.length / bf.cruise_velocity →
     ¬ (bf.cruise_velocity - bf.entry_velocity < cfg.trapezoid_velocity_tolerance ∧
        bf.cruise_velocity - bf.exit_velocity < cfg.trapezoid_velocity_tolerance) →
     bf.length ≤ MIN_HEAD_LENGTH cfg bf + MIN_BODY_LENGTH cfg bf + MIN_TAIL_LENGTH cfg bf →
     bf.exit_velocity < bf.entry_velocity →
     MIN_TAIL_LENGTH cfg bf ≤ bf.length →
      velocity_ordered (mp_calculate_trapezoid cfg fuel bf)) ∧
    (cfg.nom_segment_time < bf.length / bf.cruise_velocity →
     ¬ (bf.cruise_velocity - bf.entry_velocity < cfg.trapezoid_velocity_tolerance ∧
        bf.cruise_velocity - bf.exit_velocity < cfg.trapezoid_velocity_tolerance) →
     bf.length ≤ MIN_HEAD_LENGTH cfg bf + MIN_BODY_LENGTH cfg bf + MIN_TAIL_LENGTH cfg bf →
     bf.entry_velocity < bf.exit_velocity →
     MIN_HEAD_LENGTH cfg bf ≤ bf.length →
      velocity_ordered (mp_calculate_trapezoid cfg fuel bf)) := by
  obtain ⟨hec, hxc⟩ := hord
  refine ⟨?_, ?_, ?_, ?_, ?_⟩
  · intro h1
    by_cases h2 : bf.length / bf.cruise_velocity < cfg.min_segment_time_plus_margin
    · rw [trapezoid_eval_force cfg fuel bf h1 h2]
      exact max_le (div_nonneg hL.le hmin.le) (min_le_left _ _)
    · rw [trapezoid_eval_single cfg fuel bf h1 h2]
      have hc : 0 < bf.cruise_velocity := by
        have hpos : 0 < bf.length / bf.cruise_velocity :=
          lt_of_lt_of_le hmin (not_lt.mp h2)
        rcases div_pos_iff.mp hpos with ⟨-, h⟩ | ⟨h, -⟩
        · exact h
        · exact absurd hL (not_lt.mpr h.le)
      exact max_le hc.le (min_le_left _ _)
  · intro h2 h1
    rw [trapezoid_eval_single cfg fuel bf h1 (not_lt.mpr h2)]
    have hc : 0 < bf.cruise_velocity := by
      have hpos : 0 < bf.length / bf.cruise_velocity := lt_of_lt_of_le hmin h2
      rcases div_pos_iff.mp hpos with ⟨-, h⟩ | ⟨h, -⟩
      · exact h
      · exact absurd hL (not_lt.mpr h.le)
    exact ⟨hec, max_le hc.le (min_le_left _ _)⟩
  · intro h1 h2 h3
    rw [trapezoid_eval_match cfg fuel bf (not_le.mpr h1) h2 h3]
    exact ⟨hec, hxc⟩
  · intro h1 h2 h3 h4 h5
    rw [trapezoid_eval_tail cfg fuel bf (not_le.mpr h1) h2 h3 h4,
        if_neg (not_lt.mpr h5)]
    exact ⟨le_refl _, h4.le⟩
  · intro h1 h2 h3 h4 h5
    rw [trapezoid_eval_head cfg fuel bf (not_le.mpr h1) h2 h3 h4,
        if_neg (not_lt.mpr h5)]
    exact ⟨h4.le, le_refl _⟩

theorem C2_velocity_ordering_amended_witness :
    velocity_ordered (mp_calculate_trapezoid cfgA 8 bufC) :=
  (C2_velocity_ordering_amended cfgA 8 bufC (by norm_num [cfgA])
      (by norm_num [bufC]) (by norm_num [bufC, velocity_ordered])).2.2.1
    (by norm_num [cfgA, bufC]) (by norm_num [cfgA, bufC]) (by norm_num [cfgA, bufC])

/-- C3: a block whose naive move time is at most NOM_SEGMENT_TIME becomes a
body-only move; when the naive time is below MIN_SEGMENT_TIME_PLUS_MARGIN
the cruise velocity is first recomputed from that minimum time, and in both
sub-cases the exit velocity is clamped to
max(0, min(cruise, entry - delta_vmax)). -/
theorem C3_single_segment_body (cfg : PlannerCfg) (fuel : ℕ) (bf : MpBuf)
    (hc : 0 < bf.cruise_velocity) (hL : 0 < bf.length)
    (hnom : bf.length / bf.cruise_velocity ≤ cfg.nom_segment_time) :
    (mp_calculate_trapezoid cfg fuel bf).body_length = bf.length ∧
    (mp_calculate_trapezoid cfg fuel bf).head_length = 0 ∧
    (mp_calculate_trapezoid cfg fuel bf).tail_length = 0 ∧
    (mp_calculate_trapezoid cfg fuel bf).cruise_velocity =
      (if bf.length / bf.cruise_velocity < cfg.min_segment_time_plus_margin then
         bf.length / cfg.min_segment_time_plus_margin
       else bf.cruise_velocity) ∧
    (mp_calculate_trapezoid cfg fuel bf).exit_velocity =
      max 0 (min (mp_calculate_trapezoid cfg fuel bf).cruise_velocity
        (bf.entry_velocity - bf.delta_vmax)) := by
  by_cases h2 : bf.length / bf.cruise_velocity < cfg.min_segment_time_plus_margin
  · rw [trapezoid_eval_force cfg fuel bf hnom h2]
    simp [h2]
  · rw [trapezoid_eval_single cfg fuel bf hnom h2]
    simp [h2]

theorem C3_single_segment_body_witness :
    (mp_calculate_trapezoid cfgA 8 bufB).body_length = bufB.length ∧
    (mp_calculate_trapezoid cfgA 8 bufB).head_length = 0 ∧
    (mp_calculate_trapezoid cfgA 8 bufB).tail_length = 0 ∧
    (mp_calculate_trapezoid cfgA 8 bufB).cruise_velocity =
      (if bufB.length / bufB.cruise_velocity < cfgA.min_segment_time_plus_margin then
         bufB.length / cfgA.min_segment_time_plus_margin
       else bufB.cruise_velocity) ∧
    (mp_calculate_trapezoid cfgA 8 bufB).exit_velocity =
      max 0 (min (mp_calculate_trapezoid cfgA 8 bufB).cruise_velocity
        (bufB.entry_velocity - bufB.delta_vmax)) :=
  C3_single_segment_body cfgA 8 bufB
    (by norm_num [bufB]) (by norm_num [bufB]) (by norm_num [cfgA, bufB])

/-- C4: for both straight motion operations, a STAT_OK return leaves the
model position equal to the model target on every axis, and a non-OK return
leaves the model position untouched on every axis. -/
theorem C4_endpoint_position (cfg : Cfg) (gm : GMState) (ls : Stat)
    (target : Fin 6 → ℝ) (flag : Fin 6 → Bool) :
    ((cm_straight_feed cfg gm ls target flag).1 = Stat.ok →
      ∀ i, (cm_straight_feed cfg gm ls target flag).2.1.position i =
        (cm_straight_feed cfg gm ls target flag).2.1.target i) ∧
    ((cm_straight_feed cfg gm ls target flag).1 ≠ Stat.ok →
      ∀ i, (cm_straight_feed cfg gm ls target flag).2.1.position i = gm.position i) ∧
    ((cm_straight_traverse cfg gm ls target flag).1 = Stat.ok →
      ∀ i, (cm_straight_traverse cfg gm ls target flag).2.1.position i =
        (cm_straight_traverse cfg gm ls target flag).2.1.target i) ∧
    ((cm_straight_traverse cfg gm ls target flag).1 ≠ Stat.ok →
      ∀ i, (cm_straight_traverse cfg gm ls target flag).2.1.position i = gm.position i) := by
  refine ⟨?_, ?_, ?_, ?_⟩
  · unfold cm_straight_feed cm_set_gcode_model_endpoint_position
    dsimp only
    split_ifs with h1 h2 h3
    · simp
    · intro _ i
      exact (h2 i).symm
    · intro _ i
      simp [cm_set_target]
    · simp [h3]
  · unfold cm_straight_feed cm_set_gcode_model_endpoint_position
    dsimp only
    split_ifs with h1 h2 h3
    · intro _ i
      rfl
    · simp
    · intro hn
      exact absurd h3 hn
    · intro _ i
      simp [cm_set_target]
  · unfold cm_straight_traverse cm_set_gcode_model_endpoint_position
    dsimp only
    split_ifs with h2 h3
    · intro _ i
      exact (h2 i).symm
    · intro _ i
      simp [cm_set_target]
    · simp [h3]
  · unfold cm_straight_traverse cm_set_gcode_model_endpoint_position
    dsimp only
    split_ifs with h2 h3
    · simp
    · intro hn
      exact absurd h3 hn
    · intro _ i
      simp [cm_set_target]

theorem C4_endpoint_position_witness :
    (cm_straight_feed cfgCM gmA Stat.err vec0 flagNone).2.1.position ⟨0, by omega⟩ =
      gmA.position ⟨0, by omega⟩ := by
  apply (C4_endpoint_position cfgCM gmA Stat.err vec0 flagNone).2.1
  have hveq : ¬ vector_equal
      (cm_set_target cfgCM { gmA with motion_mode := MotionMode.straight_feed }
        vec0 flagNone).target
      (cm_set_target cfgCM { gmA with motion_mode := MotionMode.straight_feed }
        vec0 flagNone).position := by
    intro h
    have h0 := h ⟨0, by omega⟩
    simp [cm_set_target, gmA, vec0, vec1, flagNone] at h0
  unfold cm_straight_feed
  rw [if_neg (by simp [gmA]), if_neg hveq]
  simp

/-- C5 counterexample: a zero-distance straight feed issued with a zero feed
rate in units-per-minute mode returns the feed-rate error, not STAT_OK. -/
theorem C5_zero_distance_counterexample :
    vector_equal
      (cm_set_target cfgCM { gmB with motion_mode := MotionMode.straight_feed }
        vec0 flagNone).target
      (cm_set_target cfgCM { gmB with motion_mode := MotionMode.straight_feed }
        vec0 flagNone).position ∧
    (cm_straight_feed cfgCM gmB Stat.ok vec0 flagNone).1 ≠ Stat.ok := by
  constructor
  · intro i
    simp [cm_set_target, gmB, gmA, vec0, flagNone]
  · unfold cm_straight_feed
    rw [if_pos (by simp [gmB, gmA])]
    simp

/-- C5 (amended): a straight traverse whose resolved canonical target equals
the current position returns STAT_OK without submitting a planner line and
leaves the position unchanged; the same holds for a straight feed provided
the zero-feed-rate trap does not fire first (with a zero feed rate in
units-per-minute mode the feed returns the feed-rate error instead, still
without queueing and without moving the position). -/
theorem C5_zero_distance_noop (cfg : Cfg) (gm : GMState) (ls : Stat)
    (target : Fin 6 → ℝ) (flag : Fin 6 → Bool) :
    (vector_equal
        (cm_set_target cfg { gm with motion_mode := MotionMode.straight_traverse }
          target flag).target
        (cm_set_target cfg { gm with motion_mode := MotionMode.straight_traverse }
          target flag).position →
      (cm_straight_traverse cfg gm ls target flag).1 = Stat.ok ∧
      (cm_straight_traverse cfg gm ls target flag).2.2 = false ∧
      ∀ i, (cm_straight_traverse cfg gm ls target flag).2.1.position i = gm.position i) ∧
    (¬ (gm.inverse_feed_rate_mode = false ∧ gm.feed_rate = 0) →
     vector_equal
        (cm_set_target cfg { gm with motion_mode := MotionMode.straight_feed }
          target flag).target
        (cm_set_target cfg { gm with motion_mode := MotionMode.straight_feed }
          target flag).position →
      (cm_straight_feed cfg gm ls target flag).1 = Stat.ok ∧
      (cm_straight_feed cfg gm ls target flag).2.2 = false ∧
      ∀ i, (cm_straight_feed cfg gm ls target flag).2.1.position i = gm.position i) := by
  constructor
  · intro h
    unfold cm_straight_traverse
    rw [if_pos h]
    exact ⟨rfl, rfl, fun i => by simp [cm_set_target]⟩
  · intro htrap h
    unfold cm_straight_feed
    rw [if_neg htrap, if_pos h]
    exact ⟨rfl, rfl, fun i => by simp [cm_set_target]⟩

theorem C5_zero_distance_noop_witness :
    (cm_straight_traverse cfgCM gmB Stat.ok vec0 flagNone).1 = Stat.ok ∧
    (cm_straight_traverse cfgCM gmB Stat.ok vec0 flagNone).2.2 = false :=
  have h := (C5_zero_distance_noop cfgCM gmB Stat.ok vec0 flagNone).1
    (fun i => by simp [cm_set_target, gmB, gmA, vec0, flagNone])
  ⟨h.1, h.2.1⟩

/-- C6: the active coordinate offset of an axis is zero under the absolute
override, the coordinate-system offset plus the G92 origin offset when the
origin offset is enabled, and the coordinate-system offset alone when it is
disabled. -/
theorem C6_coord_offset (cfg : Cfg) (gm : GMState) (i : Fin 6) :
    (gm.absolute_override = true → cm_get_coord_offset cfg gm i = 0) ∧
    (gm.absolute_override = false → gm.origin_offset_enable = 1 →
      cm_get_coord_offset cfg gm i =
        cfg.offset gm.coord_system i + gm.origin_offset i) ∧
    (gm.absolute_override = false → gm.origin_offset_enable = 0 →
      cm_get_coord_offset cfg gm i = cfg.offset gm.coord_system i) := by
  unfold cm_get_coord_offset
  refine ⟨fun h => by simp [h], fun h h1 => by simp [h, h1], fun h h0 => ?_⟩
  rw [if_neg (by simp [h]), if_neg (by simp [h0])]

theorem C6_coord_offset_witness :
    cm_get_coord_offset cfgCM gmA ⟨0, by omega⟩ =
      cfgCM.offset gmA.coord_system ⟨0, by omega⟩ :=
  (C6_coord_offset cfgCM gmA ⟨0, by omega⟩).2.2 (by simp [gmA]) (by simp [gmA])

/-- C7: the sequencing callback is the source-ordered composition of the
three request blocks; a feedhold request is honored exactly from running
motion with no hold in progress and is cleared either way; a queue-flush
request is honored exactly from a motion stop or a completed feedhold and
stays pending otherwise; a cycle-start request is honored exactly when no
queue flush is pending, setting the hold state to end-hold and asking the
planner to resume. -/
theorem C7_feedhold_sequencing :
    (∀ s, cm_feedhold_sequencing_callback s =
       cycle_start_block (queue_flush_block (feedhold_block s))) ∧
    (∀ s : CMState, s.feedhold_requested = true → s.motion_state = MotionState.run →
       s.hold_state = HoldState.off →
       feedhold_block s = { s with motion_state := MotionState.hold,
                                   hold_state := HoldState.sync,
                                   feedhold_requested := false }) ∧
    (∀ s : CMState, s.feedhold_requested = true →
       ¬ (s.motion_state = MotionState.run ∧ s.hold_state = HoldState.off) →
       feedhold_block s = { s with feedhold_requested := false }) ∧
    (∀ s : CMState, s.feedhold_requested = false → feedhold_block s = s) ∧
    (∀ s : CMState, s.queue_flush_requested = true →
       (s.motion_state = MotionState.stop ∨
        (s.motion_state = MotionState.hold ∧ s.hold_state = HoldState.hold)) →
       queue_flush_block s = { s with queue_flush_requested := false,
                                      planner_flushed := true }) ∧
    (∀ s : CMState, ¬ (s.queue_flush_requested = true ∧
        (s.motion_state = MotionState.stop ∨
         (s.motion_state = MotionState.hold ∧ s.hold_state = HoldState.hold))) →
       queue_flush_block s = s) ∧
    (∀ s : CMState, s.cycle_start_requested = true → s.queue_flush_requested = false →
       cycle_start_block s =
         cm_cycle_start { s with cycle_start_requested := false,
                                 hold_state := HoldState.end_hold,
                                 planner_resumed := true }) ∧
    (∀ s : CMState, s.cycle_start_requested = true → s.queue_flush_requested = false →
       (cycle_start_block s).hold_state = HoldState.end_hold ∧
       (cycle_start_block s).planner_resumed = true ∧
       (cycle_start_block s).cycle_start_requested = false) ∧
    (∀ s : CMState, ¬ (s.cycle_start_requested = true ∧ s.queue_flush_requested = false) →
       cycle_start_block s = s) := by
  refine ⟨fun s => rfl, ?_, ?_, ?_, ?_, ?_, ?_, ?_, ?_⟩
  · intro s h1 h2 h3
    unfold feedhold_block
    rw [if_pos h1, if_pos ⟨h2, h3⟩]
  · intro s h1 h2
    unfold feedhold_block
    rw [if_pos h1, if_neg h2]
  · intro s h1
    unfold feedhold_block
    rw [if_neg (by simp [h1])]
  · intro s h1 h2
    unfold queue_flush_block
    rw [if_pos ⟨h1, h2⟩]
  · intro s h
    unfold queue_flush_block
    rw [if_neg h]
  · intro s h1 h2
    unfold cycle_start_block
    rw [if_pos ⟨h1, h2⟩]
  · intro s h1 h2
    unfold cycle_start_block cm_cycle_start
    rw [if_pos ⟨h1, h2⟩]
    exact ⟨rfl, rfl, rfl⟩
  · intro s h
    unfold cycle_start_block
    rw [if_neg h]

theorem C7_feedhold_sequencing_witness :
    feedhold_block smA = { smA with motion_state := MotionState.hold,
                                    hold_state := HoldState.sync,
                                    feedhold_requested := false } :=
  C7_feedhold_sequencing.2.1 smA rfl rfl rfl

/-- C8 counterexample: with the G53 absolute override active, the effective
offset after G92 followed by G92.1 is 0, not the coordinate-system value. -/
theorem C8_origin_offsets_counterexample :
    cm_get_coord_offset cfgB
        (cm_reset_origin_offsets (cm_set_origin_offsets cfgB gmD vec0 flagNone))
        ⟨0, by omega⟩ ≠
      cfgB.offset gmD.coord_system ⟨0, by omega⟩ := by
  unfold cm_get_coord_offset cm_reset_origin_offsets cm_set_origin_offsets
  simp [cfgB, cfgCM, gmD, gmA]

/-- C8 (amended): provided the absolute override is not active, G92 followed
by G92.1 restores the effective offset of every axis to the pure
coordinate-system value; G92.2 followed by G92.3 only toggles the origin
offset enable off and back on, leaving the stored origin offset vector
unchanged throughout. -/
theorem C8_origin_offsets_roundtrip (cfg : Cfg) (gm : GMState)
    (offset : Fin 6 → ℝ) (flag : Fin 6 → Bool)
    (hov : gm.absolute_override = false) :
    (∀ i, cm_get_coord_offset cfg
        (cm_reset_origin_offsets (cm_set_origin_offsets cfg gm offset flag)) i =
      cfg.offset gm.coord_system i) ∧
    cm_suspend_origin_offsets gm = { gm with origin_offset_enable := 0 } ∧
    cm_resume_origin_offsets (cm_suspend_origin_offsets gm) =
      { gm with origin_offset_enable := 1 } ∧
    (∀ i, (cm_suspend_origin_offsets gm).origin_offset i = gm.origin_offset i) ∧
    (∀ i, (cm_resume_origin_offsets (cm_suspend_origin_offsets gm)).origin_offset i =
       gm.origin_offset i) := by
  refine ⟨?_, rfl, rfl, fun i => rfl, fun i => rfl⟩
  intro i
  unfold cm_get_coord_offset cm_reset_origin_offsets cm_set_origin_offsets
  simp [hov]

theorem C8_origin_offsets_roundtrip_witness :
    cm_get_coord_offset cfgCM
        (cm_reset_origin_offsets (cm_set_origin_offsets cfgCM gmA vec0 flagNone))
        ⟨0, by omega⟩ =
      cfgCM.offset gmA.coord_system ⟨0, by omega⟩ :=
  (C8_origin_offsets_roundtrip cfgCM gmA vec0 flagNone (by simp [gmA])).1 ⟨0, by omega⟩

/-- C9: cm_get_spindle_pwm is not a pure getter: in CW and CCW modes it
writes the model spindle speed back clamped into the configured band of that
direction and returns the duty cycle interpolated from the clamped speed; in
any other mode it leaves the model untouched and returns the off phase. -/
theorem C9_spindle_pwm (cfg : Cfg) (gm : GMState) :
    (cfg.p.cw_speed_lo ≤ cfg.p.cw_speed_hi →
      (cm_get_spindle_pwm cfg gm SpindleMode.cw).1 =
        { gm with spindle_speed := min cfg.p.cw_speed_hi (max cfg.p.cw_speed_lo gm.spindle_speed) } ∧
      (cm_get_spindle_pwm cfg gm SpindleMode.cw).2 =
        ((cm_get_spindle_pwm cfg gm SpindleMode.cw).1.spindle_speed - cfg.p.cw_speed_lo) /
            (cfg.p.cw_speed_hi - cfg.p.cw_speed_lo) *
            (cfg.p.cw_phase_hi - cfg.p.cw_phase_lo) + cfg.p.cw_phase_lo) ∧
    (cfg.p.ccw_speed_lo ≤ cfg.p.ccw_speed_hi →
      (cm_get_spindle_pwm cfg gm SpindleMode.ccw).1 =
        { gm with spindle_speed := min cfg.p.ccw_speed_hi (max cfg.p.ccw_speed_lo gm.spindle_speed) } ∧
      (cm_get_spindle_pwm cfg gm SpindleMode.ccw).2 =
        ((cm_get_spindle_pwm cfg gm SpindleMode.ccw).1.spindle_speed - cfg.p.ccw_speed_lo) /
            (cfg.p.ccw_speed_hi - cfg.p.ccw_speed_lo) *
            (cfg.p.ccw_phase_hi - cfg.p.ccw_phase_lo) + cfg.p.ccw_phase_lo) ∧
    cm_get_spindle_pwm cfg gm SpindleMode.off = (gm, cfg.p.phase_off) := by
  refine ⟨?_, ?_, ?_⟩
  · intro hlohi
    unfold cm_get_spindle_pwm
    simp only [reduceCtorEq, if_true, if_false, reduceIte, true_or, if_pos]
    constructor
    · congr 1
      split_ifs with h1 h2 h3 <;> simp [min_def, max_def] <;> split_ifs <;> linarith
    · trivial
  · intro hlohi
    unfold cm_get_spindle_pwm
    simp only [reduceCtorEq, if_true, if_false, reduceIte, or_true, if_pos]
    constructor
    · congr 1
      split_ifs with h1 h2 h3 <;> simp [min_def, max_def] <;> split_ifs <;> linarith
    · trivial
  · unfold cm_get_spindle_pwm
    simp

theorem C9_spindle_pwm_witness :
    (cm_get_spindle_pwm cfgCM gmA SpindleMode.cw).1 =
      { gmA with spindle_speed := min cfgCM.p.cw_speed_hi (max cfgCM.p.cw_speed_lo gmA.spindle_speed) } :=
  ((C9_spindle_pwm cfgCM gmA).1 (by norm_num [cfgCM, pwmA])).1

/-- C10: executing the queued flood-coolant command with value false also
forces mist coolant off by invoking the mist handler, while executing it
with value true changes only the flood flag and leaves mist untouched. -/
theorem C10_flood_coolant (gm : GMState) :
    exec_flood_coolant_control gm false =
      exec_mist_coolant_control { gm with flood_coolant := false } false ∧
    (exec_flood_coolant_control gm false).flood_coolant = false ∧
    (exec_flood_coolant_control gm false).mist_coolant = false ∧
    exec_flood_coolant_control gm true = { gm with flood_coolant := true } ∧
    (exec_flood_coolant_control gm true).mist_coolant = gm.mist_coolant := by
  refine ⟨rfl, rfl, rfl, rfl, rfl⟩

end TinyG2
